import Mathlib

/-!
Verification of the AI-Fitness-Health-Analyzer repository skeleton:
the React route table and app shell (embedded in `repush_to_github.bat`
after the batch script), the Footer component and MUI theme
(`frontend/src/components/Footer.js`, which also carries `theme.js`),
and the `repush_to_github.bat` push script itself, modelled with
cmd.exe percent-expansion and block-parsing semantics.
-/

namespace FitnessApp

/-- The page components imported and routed by `App` (App.js). -/
inductive Page where
  | homePage
  | uploadPage
  | dashboardPage
  | historyPage
  | aboutPage
  | notFoundPage
deriving DecidableEq

/-- One segment of a React-Router path pattern: a literal segment such as
`upload`, or a named parameter such as `:id`. -/
inductive Seg where
  | lit (s : String)
  | param (name : String)
deriving DecidableEq

/-- A route path pattern: a fixed list of segments, or the catch-all `*`. -/
inductive RPattern where
  | segs (ps : List Seg)
  | splat
deriving DecidableEq

/-- Parameter bindings produced by a route match (what `useParams` sees). -/
abbrev Bindings := List (String × String)

/-- Segment-wise pattern matching: a literal segment matches itself, a
`:name` parameter matches any one segment and binds it, and lengths must
agree exactly. -/
def matchSegs : List Seg → List String → Option Bindings
  | [], [] => some []
  | Seg.lit s :: ps, seg :: rest =>
      if s = seg then matchSegs ps rest else none
  | Seg.param n :: ps, seg :: rest =>
      (matchSegs ps rest).map (fun bs => (n, seg) :: bs)
  | _, _ => none

/-- Matching a whole pattern against a path (as a list of segments): the
catch-all `*` matches every path with no bindings. -/
def matchPattern : RPattern → List String → Option Bindings
  | RPattern.segs ps, path => matchSegs ps path
  | RPattern.splat, _ => some []

/-- The five declared routes of `App` (App.js), in source order:
`/` → HomePage, `/upload` → UploadPage, `/dashboard/:id` → DashboardPage,
`/history` → HistoryPage, `/about` → AboutPage. -/
def declaredRoutes : List (RPattern × Page) :=
  [ (RPattern.segs [], Page.homePage),
    (RPattern.segs [Seg.lit "upload"], Page.uploadPage),
    (RPattern.segs [Seg.lit "dashboard", Seg.param "id"], Page.dashboardPage),
    (RPattern.segs [Seg.lit "history"], Page.historyPage),
    (RPattern.segs [Seg.lit "about"], Page.aboutPage) ]

/-- The full route table of `App`: the declared routes followed by the
catch-all `<Route path="*" element={<NotFoundPage />} />`. -/
def routeTable : List (RPattern × Page) :=
  declaredRoutes ++ [(RPattern.splat, Page.notFoundPage)]

/-- The route selected by `<Routes>`: the first entry of the table whose
pattern matches the path, together with its parameter bindings.  (For this
table, source order agrees with React Router rank order: the five declared
patterns are mutually exclusive and the splat ranks last.) -/
def firstMatch : List (RPattern × Page) → List String → Option (Page × Bindings)
  | [], _ => none
  | (pat, pg) :: rest, path =>
      match matchPattern pat path with
      | some bs => some (pg, bs)
      | none => firstMatch rest path

/-- The navigate operation of the app shell: path in, displayed page and
its path-parameter bindings out.  The catch-all row makes the lookup
total; the default is unreachable. -/
def navigate (path : List String) : Page × Bindings :=
  (firstMatch routeTable path).getD (Page.notFoundPage, [])

/-- The list of page components `<Routes>` renders for a path: the single
best match, or nothing when no route matches. -/
def rendered (path : List String) : List Page :=
  match firstMatch routeTable path with
  | some (pg, _) => [pg]
  | none => []

/-- Splits a character list at `/`, accumulating the current segment. -/
def splitSegsAux : List Char → List Char → List String
  | [], acc => [String.mk acc.reverse]
  | c :: cs, acc =>
      if c = '/' then String.mk acc.reverse :: splitSegsAux cs []
      else splitSegsAux cs (c :: acc)

/-- URL path → list of its non-empty segments, so that `/` becomes `[]`
and `/dashboard/42` becomes `["dashboard", "42"]`. -/
def parsePath (p : String) : List String :=
  (splitSegsAux p.toList []).filter (fun s => s ≠ "")

/-- The ambient date, as far as Footer consumes it: `new Date()` is only
asked for its full year. -/
structure Date where
  year : Nat
deriving DecidableEq

/-- JS `Date.prototype.getFullYear` on the modelled date. -/
def getFullYear (d : Date) : Nat := d.year

/-- The first text child of the footer Typography: `'© '`. -/
def copyrightPrefix : String := "© "

/-- The third text child of the footer Typography: the fixed product and
attribution string. -/
def attributionText : String :=
  " AI Fitness Health Analyzer | Powered by Google Gemini AI"

/-- The three text children rendered by `Footer` (Footer.js): the
copyright mark, the current full year, and the fixed attribution string. -/
def footerTextNodes (now : Date) : List String :=
  [copyrightPrefix, toString (getFullYear now), attributionText]

/-- The theme palette of `theme.js` (carried in Footer.js), flattened to
dotted role names, exactly the entries of `createTheme`'s `palette`. -/
def palette : List (String × String) :=
  [ ("primary.main", "#6C63FF"),
    ("primary.light", "#A084E8"),
    ("primary.dark", "#3D348B"),
    ("primary.contrastText", "#fff"),
    ("secondary.main", "#FF6584"),
    ("secondary.light", "#FFD86E"),
    ("secondary.dark", "#FF4F5A"),
    ("secondary.contrastText", "#fff"),
    ("accent.main", "#FFD86E"),
    ("success.main", "#43E97B"),
    ("success.light", "#38F9D7"),
    ("warning.main", "#FFD86E"),
    ("error.main", "#FF4F5A"),
    ("background.default", "linear-gradient(135deg, #F9F9F9 0%, #E0C3FC 100%)"),
    ("background.paper", "#fff"),
    ("info.main", "#38F9D7"),
    ("text.primary", "#3D348B"),
    ("text.secondary", "#6C63FF") ]

/-- Looks a dotted role name up in the flattened palette. -/
def paletteLookup (role : String) : Option String :=
  (palette.find? (fun e => e.1 = role)).map (fun e => e.2)

/-- The palette roles named by Footer and the App Shell sources: Footer's
Typography says `color="text.secondary"` (Footer.js line 20); the App
Shell's own `sx` props use only literal values and name no palette role. -/
def consumedRoles : List String := ["text.secondary"]

/-- Modelled from the spec: the Header component's source file is absent
from the repository ("Header (referenced, not shown): presumed analogous
stateless presentational component").  App.js renders `<Header />` with no
props, so it is one fixed view value with no inputs. -/
inductive HeaderView where
  | mk
deriving DecidableEq

/-- What the mounted App shell shows for a given ambient date and path:
the theme installed by ThemeProvider, the Header, the routed content
region (the matched page and its params), and the Footer text. -/
structure AppView where
  theme : List (String × String)
  header : HeaderView
  content : Page × Bindings
  footer : List String
deriving DecidableEq

/-- The render of `App` (App.js): ThemeProvider(theme) wraps CssBaseline
and a column Box holding Header, the routed content Box, and Footer.
Only the content region depends on the path. -/
def renderApp (now : Date) (path : List String) : AppView :=
  { theme := palette,
    header := HeaderView.mk,
    content := navigate path,
    footer := footerTextNodes now }

end FitnessApp

namespace Repush

/-- External operations the push script performs, in the order the batch
file reaches them: the git invocations and the interactive `set /p` read. -/
inductive ScriptOp where
  | versionCheck
  | statusPorcelain
  | addAll
  | diffCachedQuiet
  | readOperatorInput
  | commit (msg : String)
  | branchShowCurrent
  | forcePushWithLease
  | pushPlain
deriving DecidableEq

/-- How a run of the batch file ends: an explicit `exit /b n` (or normal
end of file), or a cmd.exe abort on a block-parse error such as
`else was unexpected at this time.`. -/
inductive ExitKind where
  | code (n : Nat)
  | cmdParseError
deriving DecidableEq

/-- The external world a run of `repush_to_github.bat` observes:
exit statuses of the git commands whose errorlevel the script tests,
whether `.git` exists, the state of the `commit_message` cmd variable
when the commit block is parsed (the script never runs `setlocal`, so a
stale value from the same cmd session is possible; `none` = undefined,
the fresh-session case), the operator's interactive input, and the exit
statuses the two pushes would report. -/
structure Env where
  gitVersionExit : Nat
  dotGitExists : Bool
  diffCachedExit : Nat
  commitVarBefore : Option String
  operatorInput : String
  forcePushExit : Nat
  plainPushExit : Nat

/-- The fixed default commit message of line 36 of the script. -/
def defaultCommitMessage : String :=
  "🚀 Update: Complete AI Fitness Health Analyzer with all components and fixes"

/-- The value cmd.exe substitutes for `%commit_message%` when it reads the
parenthesized commit block (lines 31-45): percent expansion happens once,
when the whole block is parsed, before `set /p` runs; delayed expansion is
never enabled; in batch-file execution an undefined variable expands to
the empty string. -/
def expandedCommitMessage (varBefore : Option String) : String :=
  varBefore.getD ""

/-- What one run of the script does: the external operations performed in
order, the human-readable lines echoed, and how the run ends. -/
structure ScriptResult where
  ops : List ScriptOp
  echoes : List String
  exit : ExitKind
deriving DecidableEq

/-- A run of `repush_to_github.bat` under cmd.exe semantics.

Lines 5-12: `git --version` then `exit /b 1` when it failed.
Lines 15-20: `exit /b 1` when `.git` does not exist.
Lines 22-27: status, stage.
Lines 29-45: `git diff --cached --quiet`; when it exits nonzero the commit
block runs.  Every `%commit_message%` in that block was already expanded
when the block was parsed, so the `if "%commit_message%"==""` test
compares the pre-block value (never this run's input) — in a fresh session
it is `if ""==""`, true, and the default-message `set` executes, but it
can only affect later percent reads (there are none) — and the message
passed to git is `expandedCommitMessage` of the pre-block value: empty in
a fresh session (git then aborts the commit for an empty message, an exit
status the script never tests), a stale session value otherwise.  The
operator's input is read and discarded either way.
Lines 47-50: show branch, `git push --force-with-lease origin main`.
Lines 52-101: one `if %errorlevel% equ 0 ( ... ) else ( ... )` compound.
Its inner `if` (lines 96-103) lacks the `)` before `else`, so cmd.exe
fails to parse the compound (`else was unexpected at this time.`) right
after the force push returns, aborting the batch before either branch —
neither the success guidance, nor the failure guidance, nor the fallback
`git push origin main` is ever reached. -/
def runScript (env : Env) : ScriptResult :=
  if env.gitVersionExit ≠ 0 then
    { ops := [ScriptOp.versionCheck]
      echoes := [ "===== AI Fitness Health Analyzer - Re-Push to GitHub =====",
                  "Error: Git is not installed or not in your PATH.",
                  "Please install Git from https://git-scm.com/" ]
      exit := ExitKind.code 1 }
  else if !env.dotGitExists then
    { ops := [ScriptOp.versionCheck]
      echoes := [ "===== AI Fitness Health Analyzer - Re-Push to GitHub =====",
                  "Error: Not a git repository.",
                  "Please run push_to_github.bat first to initialize the repository." ]
      exit := ExitKind.code 1 }
  else
    let commitOps : List ScriptOp :=
      if env.diffCachedExit ≠ 0 then
        [ScriptOp.readOperatorInput,
         ScriptOp.commit (expandedCommitMessage env.commitVarBefore)]
      else []
    let commitEchoes : List String :=
      if env.diffCachedExit ≠ 0 then ["Creating commit with latest changes..."]
      else ["No changes detected to commit."]
    { ops := [ScriptOp.versionCheck, ScriptOp.statusPorcelain,
              ScriptOp.addAll, ScriptOp.diffCachedQuiet]
             ++ commitOps
             ++ [ScriptOp.branchShowCurrent, ScriptOp.forcePushWithLease]
      echoes := [ "===== AI Fitness Health Analyzer - Re-Push to GitHub =====",
                  "Current repository status:",
                  "Adding all changes to git...",
                  "Checking for changes to commit..." ]
               ++ commitEchoes
               ++ [ "Current branch:",
                    "Force pushing to GitHub (this will overwrite remote)..." ]
      exit := ExitKind.cmdParseError }

/-- A baseline world: git present, inside a repository, staged changes
exist, fresh cmd session, both pushes would succeed. -/
def baseEnv : Env :=
  { gitVersionExit := 0, dotGitExists := true, diffCachedExit := 1,
    commitVarBefore := none, operatorInput := "", forcePushExit := 0,
    plainPushExit := 0 }

/-- A run in which the force push would fail and the plain push would
succeed. -/
def forceFailEnv : Env := { baseEnv with forcePushExit := 1 }

/-- A run in which git is absent: `git --version` reports 9009
(command not found). -/
def noGitEnv : Env := { baseEnv with gitVersionExit := 9009 }

end Repush

namespace FitnessApp

/-- Helper: a route table ending in the catch-all matches every path. -/
theorem firstMatch_total (rs : List (RPattern × Page)) (pg : Page)
    (p : List String) :
    (firstMatch (rs ++ [(RPattern.splat, pg)]) p).isSome := by
  induction rs with
  | nil => simp [firstMatch, matchPattern]
  | cons r rs ih =>
      obtain ⟨pat, q⟩ := r
      cases hm : matchPattern pat p <;> simp [firstMatch, hm, ih]

/-- C1: navigating to each of the five declared route paths renders
exactly the corresponding named page component, exactly once — the
rendered list for each path is the singleton of that page, and every path
renders exactly one page component. -/
theorem declared_paths_render_their_page_once (id : String) :
    rendered (parsePath "/") = [Page.homePage] ∧
    rendered (parsePath "/upload") = [Page.uploadPage] ∧
    rendered ["dashboard", id] = [Page.dashboardPage] ∧
    rendered (parsePath "/history") = [Page.historyPage] ∧
    rendered (parsePath "/about") = [Page.aboutPage] ∧
    ∀ q : List String, (rendered q).length = 1 := by
  refine ⟨by decide, by decide, ?_, by decide, by decide, ?_⟩
  · simp [rendered, routeTable, declaredRoutes, firstMatch, matchPattern, matchSegs]
  · intro q
    have h := firstMatch_total declaredRoutes Page.notFoundPage q
    unfold rendered routeTable
    cases hm : firstMatch (declaredRoutes ++ [(RPattern.splat, Page.notFoundPage)]) q with
    | none => rw [hm] at h; simp at h
    | some r => simp

/-- Witness for C1 at the concrete parameter value `7`. -/
theorem declared_paths_render_their_page_once_witness :
    rendered (parsePath "/") = [Page.homePage] ∧
    rendered (parsePath "/upload") = [Page.uploadPage] ∧
    rendered ["dashboard", "7"] = [Page.dashboardPage] ∧
    rendered (parsePath "/history") = [Page.historyPage] ∧
    rendered (parsePath "/about") = [Page.aboutPage] ∧
    ∀ q : List String, (rendered q).length = 1 :=
  declared_paths_render_their_page_once "7"

/-- C2: a path matching none of the five declared route patterns renders
the NotFoundPage fallback with no bindings; the navigate operation still
returns a page (never an error). -/
theorem unmatched_path_renders_fallback (p : List String)
    (h : ∀ pr ∈ declaredRoutes, matchPattern pr.1 p = none) :
    navigate p = (Page.notFoundPage, []) ∧
    rendered p = [Page.notFoundPage] := by
  have h1 := h (RPattern.segs [], Page.homePage) (by simp [declaredRoutes])
  have h2 := h (RPattern.segs [Seg.lit "upload"], Page.uploadPage)
    (by simp [declaredRoutes])
  have h3 := h (RPattern.segs [Seg.lit "dashboard", Seg.param "id"], Page.dashboardPage)
    (by simp [declaredRoutes])
  have h4 := h (RPattern.segs [Seg.lit "history"], Page.historyPage)
    (by simp [declaredRoutes])
  have h5 := h (RPattern.segs [Seg.lit "about"], Page.aboutPage)
    (by simp [declaredRoutes])
  simp only [matchPattern] at h1 h2 h3 h4 h5
  constructor <;>
    simp [navigate, rendered, routeTable, declaredRoutes, firstMatch,
      matchPattern, h1, h2, h3, h4, h5]

/-- Witness for C2 at the concrete path `/nonexistent`. -/
theorem unmatched_path_renders_fallback_witness :
    navigate (parsePath "/nonexistent") = (Page.notFoundPage, []) ∧
    rendered (parsePath "/nonexistent") = [Page.notFoundPage] :=
  unmatched_path_renders_fallback (parsePath "/nonexistent") (by decide)

/-- C3: at every render, Footer shows the copyright mark, then the full
year of the render-time date, then the fixed attribution string. -/
theorem footer_year_is_render_year (now : Date) :
    footerTextNodes now = [copyrightPrefix, toString now.year, attributionText] ∧
    copyrightPrefix = "© " ∧
    attributionText = " AI Fitness Health Analyzer | Powered by Google Gemini AI" :=
  ⟨rfl, rfl, rfl⟩

/-- Witness for C3 at the concrete render year 2026. -/
theorem footer_year_is_render_year_witness :
    footerTextNodes (Date.mk 2026) = [copyrightPrefix, toString (2026 : Nat), attributionText] ∧
    copyrightPrefix = "© " ∧
    attributionText = " AI Fitness Health Analyzer | Powered by Google Gemini AI" :=
  footer_year_is_render_year (Date.mk 2026)

/-- C4: every palette role named by the Footer or App Shell sources has a
non-empty value in the theme palette. -/
theorem consumed_roles_have_nonempty_palette_entries (role : String)
    (h : role ∈ consumedRoles) :
    ∃ v, paletteLookup role = some v ∧ v ≠ "" := by
  simp only [consumedRoles, List.mem_singleton] at h
  subst h
  exact ⟨"#6C63FF", by decide, by decide⟩

/-- Witness for C4 at the concrete role `text.secondary`. -/
theorem consumed_roles_have_nonempty_palette_entries_witness :
    ∃ v, paletteLookup "text.secondary" = some v ∧ v ≠ "" :=
  consumed_roles_have_nonempty_palette_entries "text.secondary" (by decide)

/-- C5: navigating to `/dashboard/42` renders the Dashboard page and
binds the path parameter `id` to the string `42`. -/
theorem dashboard_42_binds_id :
    navigate (parsePath "/dashboard/42") = (Page.dashboardPage, [("id", "42")]) ∧
    rendered (parsePath "/dashboard/42") = [Page.dashboardPage] := by
  decide

/-- C9: navigation changes only the routed content region — the theme,
Header and Footer of the mounted App shell are identical across any two
paths, and the content region is exactly the navigate result. -/
theorem navigation_changes_only_content (now : Date) (p q : List String) :
    (renderApp now p).theme = (renderApp now q).theme ∧
    (renderApp now p).header = (renderApp now q).header ∧
    (renderApp now p).footer = (renderApp now q).footer ∧
    (renderApp now p).content = navigate p :=
  ⟨rfl, rfl, rfl, rfl⟩

/-- Witness for C9 at a concrete date and two concrete paths. -/
theorem navigation_changes_only_content_witness :
    (renderApp (Date.mk 2025) (parsePath "/upload")).theme
      = (renderApp (Date.mk 2025) (parsePath "/about")).theme ∧
    (renderApp (Date.mk 2025) (parsePath "/upload")).header
      = (renderApp (Date.mk 2025) (parsePath "/about")).header ∧
    (renderApp (Date.mk 2025) (parsePath "/upload")).footer
      = (renderApp (Date.mk 2025) (parsePath "/about")).footer ∧
    (renderApp (Date.mk 2025) (parsePath "/upload")).content
      = navigate (parsePath "/upload") :=
  navigation_changes_only_content (Date.mk 2025) (parsePath "/upload") (parsePath "/about")

end FitnessApp

namespace Repush

/-- C6 (code bug): in a fresh session, whatever the operator types, the
commit is made with the empty message — never with the operator's input
and never with the fixed default message — because cmd expanded the whole
block, with `commit_message` undefined, before `set /p` ran. -/
theorem commit_runs_with_empty_message (input : String)
    (hne : input ≠ "") :
    ScriptOp.commit "" ∈ (runScript { baseEnv with operatorInput := input }).ops ∧
    ScriptOp.readOperatorInput ∈ (runScript { baseEnv with operatorInput := input }).ops ∧
    ScriptOp.commit input ∉ (runScript { baseEnv with operatorInput := input }).ops ∧
    ScriptOp.commit defaultCommitMessage ∉ (runScript { baseEnv with operatorInput := input }).ops := by
  refine ⟨?_, ?_, ?_, ?_⟩ <;>
    simp [runScript, baseEnv, expandedCommitMessage, defaultCommitMessage, hne]

/-- Witness for C6: the operator types `Fix typo`, yet the commit carries
the empty message, not that input and not the default. -/
theorem commit_runs_with_empty_message_witness :
    ScriptOp.commit "" ∈ (runScript { baseEnv with operatorInput := "Fix typo" }).ops ∧
    ScriptOp.readOperatorInput ∈ (runScript { baseEnv with operatorInput := "Fix typo" }).ops ∧
    ScriptOp.commit "Fix typo" ∉ (runScript { baseEnv with operatorInput := "Fix typo" }).ops ∧
    ScriptOp.commit defaultCommitMessage ∉ (runScript { baseEnv with operatorInput := "Fix typo" }).ops :=
  commit_runs_with_empty_message "Fix typo" (by decide)

/-- C7 (code bug): in a run whose force push fails, the script dies on
the cmd block-parse error: the fallback plain push is never attempted and
the failure guidance is never printed. -/
theorem failed_force_push_has_no_fallback :
    (runScript forceFailEnv).exit = ExitKind.cmdParseError ∧
    ScriptOp.pushPlain ∉ (runScript forceFailEnv).ops ∧
    "Trying regular push..." ∉ (runScript forceFailEnv).echoes := by
  decide

/-- C8 (code bug): the script never exits with the push's status — it
aborts on the cmd block-parse error — and neither the success guidance
nor the failure guidance is ever printed. -/
theorem push_guidance_never_printed :
    (runScript baseEnv).exit = ExitKind.cmdParseError ∧
    (∀ n : Nat, (runScript baseEnv).exit ≠ ExitKind.code n) ∧
    "✅ Successfully re-pushed to GitHub!" ∉ (runScript baseEnv).echoes ∧
    "❌ Failed to push to GitHub." ∉ (runScript forceFailEnv).echoes := by
  refine ⟨by decide, ?_, by decide, by decide⟩
  intro n
  simp [runScript, baseEnv]

/-- C10: when git is missing or `.git` does not exist, the script exits
with status 1 having performed no staging, commit, or push operation. -/
theorem precheck_failure_exits_before_git_mutations (env : Env)
    (h : env.gitVersionExit ≠ 0 ∨ env.dotGitExists = false) :
    (runScript env).exit = ExitKind.code 1 ∧
    ScriptOp.addAll ∉ (runScript env).ops ∧
    (∀ m : String, ScriptOp.commit m ∉ (runScript env).ops) ∧
    ScriptOp.forcePushWithLease ∉ (runScript env).ops ∧
    ScriptOp.pushPlain ∉ (runScript env).ops := by
  rcases h with h | h
  · simp [runScript, h]
  · by_cases hg : env.gitVersionExit ≠ 0
    · simp [runScript, hg]
    · simp [runScript, hg, h]

/-- Witness for C10: git reports 9009 (not installed); the run exits 1
without staging, committing, or pushing. -/
theorem precheck_failure_exits_before_git_mutations_witness :
    (runScript noGitEnv).exit = ExitKind.code 1 ∧
    ScriptOp.addAll ∉ (runScript noGitEnv).ops ∧
    (∀ m : String, ScriptOp.commit m ∉ (runScript noGitEnv).ops) ∧
    ScriptOp.forcePushWithLease ∉ (runScript noGitEnv).ops ∧
    ScriptOp.pushPlain ∉ (runScript noGitEnv).ops :=
  precheck_failure_exits_before_git_mutations noGitEnv (Or.inl (by decide))

end Repush
